import Mathlib

/-!
Verification of the Temporal Context Intelligence Core of WakeIQX
(semantic-wake-intelligence-mcp), embedded shallowly from the TypeScript
shown in the repository's documentation sources.

Conventions of the embedding:
* timestamps are milliseconds since epoch, modelled as `Int`
  (JavaScript `Date.getTime()` / `Date.now()`);
* elapsed hours `(now - lastAccessed) / (1000 * 60 * 60)` are modelled as
  exact rationals (`ℚ`), mirroring JavaScript float division;
* the persistence layer (Cloudflare D1 `context_snapshots` table) is
  modelled as a `List Snapshot`; SQL queries become list operations;
* `null`/`undefined` fields become `Option`; the JavaScript coercion
  `x || null` on a string is `orNull` (the empty string is falsy);
* fallible operations return `Except`.
-/

namespace WakeIQX

/-- Layer 1 action types (`action_type` column:
`conversation|decision|file_edit|tool_use|research`). -/
inductive ActionType where
  | conversation
  | decision
  | file_edit
  | tool_use
  | research
deriving DecidableEq, Repr

/-- Layer 2 memory tiers (enum `MemoryTier` in `MemoryManagerService`). -/
inductive MemoryTier where
  | ACTIVE
  | RECENT
  | ARCHIVED
  | EXPIRED
deriving DecidableEq, Repr

/-- One row of `context_snapshots`, with the core columns and the
Layer 1 (causality), Layer 2 (memory) and Layer 3 (propagation) facets
flattened into one record, as in the unified schema. -/
structure Snapshot where
  id : String
  project : String
  summary : String
  timestamp : Int
  actionType : Option ActionType
  causedBy : Option String
  rationale : Option String
  tier : MemoryTier
  lastAccessed : Option Int
  accessCount : Nat
  predictionScore : Option ℚ
  lastPredicted : Option Int
  propagationReasons : Option (List String)
deriving DecidableEq, Repr

/-- A convenient base row: every optional facet absent, counters zero.
Concrete stores in witnesses and counterexamples are built by updating it. -/
def baseSnapshot : Snapshot :=
  { id := "", project := "", summary := "", timestamp := 0,
    actionType := none, causedBy := none, rationale := none,
    tier := MemoryTier.ARCHIVED, lastAccessed := none, accessCount := 0,
    predictionScore := none, lastPredicted := none, propagationReasons := none }

/-! ## Layer 2: MemoryManagerService.calculateMemoryTier

```typescript
function calculateMemoryTier(lastAccessed: Date | null, now: Date): MemoryTier {
  if (!lastAccessed) return MemoryTier.ARCHIVED;
  const hoursSinceAccess = (now.getTime() - lastAccessed.getTime()) / (1000 * 60 * 60);
  if (hoursSinceAccess < 1) return MemoryTier.ACTIVE;
  if (hoursSinceAccess < 24) return MemoryTier.RECENT;
  if (hoursSinceAccess < 24 * 30) return MemoryTier.ARCHIVED;
  return MemoryTier.EXPIRED;
}
```
-/

def calculateMemoryTier (lastAccessed : Option Int) (now : Int) : MemoryTier :=
  match lastAccessed with
  | none => MemoryTier.ARCHIVED
  | some t =>
    let hoursSinceAccess : ℚ := ((now - t : Int) : ℚ) / (1000 * 60 * 60)
    if hoursSinceAccess < 1 then MemoryTier.ACTIVE
    else if hoursSinceAccess < 24 then MemoryTier.RECENT
    else if hoursSinceAccess < 24 * 30 then MemoryTier.ARCHIVED
    else MemoryTier.EXPIRED

/-- C2: `calculateMemoryTier` is a total deterministic function of the elapsed
hours `h = (now - lastAccessed) / 3600000` with half-open boundaries at exactly
1h, 24h and 720h: `h < 1` gives ACTIVE, `1 ≤ h < 24` RECENT, `24 ≤ h < 720`
ARCHIVED, `h ≥ 720` EXPIRED; `lastAccessed = none` gives ARCHIVED; a value
exactly at a threshold belongs to the next tier up (exactly 1.0 hour is
RECENT, not ACTIVE). -/
theorem calculateMemoryTier_boundaries (t now : Int) :
    calculateMemoryTier none now = MemoryTier.ARCHIVED ∧
    (((now - t : Int) : ℚ) / 3600000 < 1 →
      calculateMemoryTier (some t) now = MemoryTier.ACTIVE) ∧
    (1 ≤ ((now - t : Int) : ℚ) / 3600000 → ((now - t : Int) : ℚ) / 3600000 < 24 →
      calculateMemoryTier (some t) now = MemoryTier.RECENT) ∧
    (24 ≤ ((now - t : Int) : ℚ) / 3600000 → ((now - t : Int) : ℚ) / 3600000 < 720 →
      calculateMemoryTier (some t) now = MemoryTier.ARCHIVED) ∧
    (720 ≤ ((now - t : Int) : ℚ) / 3600000 →
      calculateMemoryTier (some t) now = MemoryTier.EXPIRED) ∧
    (((now - t : Int) : ℚ) / 3600000 = 1 →
      calculateMemoryTier (some t) now = MemoryTier.RECENT) := by
  refine ⟨rfl, ?_, ?_, ?_, ?_, ?_⟩ <;>
    · intros
      unfold calculateMemoryTier
      dsimp only
      split_ifs <;> first | rfl | linarith

/-- Witness for C2 at concrete boundary-adjacent inputs: 30 minutes is ACTIVE,
exactly one hour is RECENT, exactly 24 hours is ARCHIVED, exactly 720 hours
(30 days) is EXPIRED. -/
theorem calculateMemoryTier_boundaries_witness :
    calculateMemoryTier (some 0) 1800000 = MemoryTier.ACTIVE ∧
    calculateMemoryTier (some 0) 3600000 = MemoryTier.RECENT ∧
    calculateMemoryTier (some 0) 86400000 = MemoryTier.ARCHIVED ∧
    calculateMemoryTier (some 0) 2592000000 = MemoryTier.EXPIRED :=
  ⟨(calculateMemoryTier_boundaries 0 1800000).2.1 (by norm_num),
   (calculateMemoryTier_boundaries 0 3600000).2.2.2.2.2 (by norm_num),
   (calculateMemoryTier_boundaries 0 86400000).2.2.2.1 (by norm_num) (by norm_num),
   (calculateMemoryTier_boundaries 0 2592000000).2.2.2.2.1 (by norm_num)⟩

/-! ## The store

The persistence layer is a single table `context_snapshots`; we model it as a
list of rows. `findById` is `SELECT * FROM context_snapshots WHERE id = ?`
(the repository's `findById`). -/

def findById (store : List Snapshot) (id : String) : Option Snapshot :=
  store.find? (fun s => s.id == id)

/-! ## Layer 3: PropagationService scoring

Temporal score (40% weight):
```typescript
const hoursSinceAccess = (now - lastAccessed) / (1000 * 60 * 60);
if (hoursSinceAccess < 1) return 1.0;
if (hoursSinceAccess < 6) return 0.8;
if (hoursSinceAccess < 24) return 0.5;
if (hoursSinceAccess < 168) return 0.3;
return 0.1;
```
A `null` `lastAccessed` coerces to `0` in the JavaScript subtraction
(`now - null === now - 0`), which we model with `Option.getD 0`. -/

def hoursSince (lastAccessed : Option Int) (now : Int) : ℚ :=
  ((now - lastAccessed.getD 0 : Int) : ℚ) / (1000 * 60 * 60)

def calculateTemporalScore (lastAccessed : Option Int) (now : Int) : ℚ :=
  let hoursSinceAccess := hoursSince lastAccessed now
  if hoursSinceAccess < 1 then 1
  else if hoursSinceAccess < 6 then 8/10
  else if hoursSinceAccess < 24 then 5/10
  else if hoursSinceAccess < 168 then 3/10
  else 1/10

/-- Children of a snapshot in the causal graph: the rows whose `caused_by`
points at it (index `idx_contexts_caused_by`). -/
def childrenCount (store : List Snapshot) (id : String) : Nat :=
  (store.filter (fun c => c.causedBy == some id)).length

/-- Causal score (30% weight), translated branch for branch from the source:
```typescript
if (isRootCause) return 1.0;              // Root causes very valuable
if (hasMultipleChildren) return 0.8;       // Branch points important
if (isDecisionNode) return 0.9;            // Decisions high-value
if (isLeafNode) return 0.3;                // Leaves less likely revisited
return 0.5;                                // Default
```
Note the second check (`hasMultipleChildren`) is evaluated BEFORE the
decision-node check. -/
def calculateCausalScore (store : List Snapshot) (s : Snapshot) : ℚ :=
  if s.causedBy = none then 1
  else if 2 ≤ childrenCount store s.id then 8/10
  else if s.actionType = some ActionType.decision then 9/10
  else if childrenCount store s.id = 0 then 3/10
  else 5/10

/-- Frequency score (30% weight):
```typescript
if (accessCount >= 10) return 1.0;
if (accessCount >= 5) return 0.7;
if (accessCount >= 2) return 0.4;
return 0.2;
```
-/
def calculateFrequencyScore (accessCount : Nat) : ℚ :=
  if 10 ≤ accessCount then 1
  else if 5 ≤ accessCount then 7/10
  else if 2 ≤ accessCount then 4/10
  else 2/10

/-- `calculatePredictionScore`:
`temporalScore * 0.4 + causalScore * 0.3 + frequencyScore * 0.3`. -/
def calculatePredictionScore (store : List Snapshot) (s : Snapshot) (now : Int) : ℚ :=
  calculateTemporalScore s.lastAccessed now * (4/10)
    + calculateCausalScore store s * (3/10)
    + calculateFrequencyScore s.accessCount * (3/10)

/-- `calculatePropagationReasons`, translated check for check from the source:
```typescript
const reasons: string[] = [];
if (hoursSinceAccess < 24) reasons.push('recently_accessed');
if (context.causality?.causedBy === null) reasons.push('causal_chain_root');
if (context.memory?.accessCount >= 10) reasons.push('high_access_frequency');
if (context.memory?.tier === MemoryTier.ACTIVE) reasons.push('active_memory_tier');
if (context.causality?.actionType === 'decision') reasons.push('decision_node');
return reasons;
```
-/
def calculatePropagationReasons (s : Snapshot) (now : Int) : List String :=
  (if hoursSince s.lastAccessed now < 24 then ["recently_accessed"] else [])
    ++ (if s.causedBy = none then ["causal_chain_root"] else [])
    ++ (if 10 ≤ s.accessCount then ["high_access_frequency"] else [])
    ++ (if s.tier = MemoryTier.ACTIVE then ["active_memory_tier"] else [])
    ++ (if s.actionType = some ActionType.decision then ["decision_node"] else [])

/-- `isPredictionStale`:
```typescript
function isPredictionStale(lastPredicted: Date | null, threshold: number): boolean {
  if (!lastPredicted) return true;
  const hoursSince = (Date.now() - lastPredicted.getTime()) / (1000 * 60 * 60);
  return hoursSince >= threshold;
}
```
-/
def isPredictionStale (lastPredicted : Option Int) (threshold : ℚ) (now : Int) : Bool :=
  match lastPredicted with
  | none => true
  | some t => decide (threshold ≤ ((now - t : Int) : ℚ) / (1000 * 60 * 60))

/-- Modelled from the spec: the body of `updateProjectPredictions` is not
shown in the repository sources (only its interface, staleness check and
behaviour are documented), so this definition follows the spec's words:
recompute `predictionScore`, `propagationReasons` and `lastPredicted` for
every snapshot of the project whose prediction `isPredictionStale`, skip the
rest, and return the number of snapshots touched. -/
def updateProjectPredictions (store : List Snapshot) (project : String)
    (threshold : ℚ) (now : Int) : List Snapshot × Nat :=
  (store.map (fun s =>
      if s.project == project && isPredictionStale s.lastPredicted threshold now then
        { s with predictionScore := some (calculatePredictionScore store s now),
                 propagationReasons := some (calculatePropagationReasons s now),
                 lastPredicted := some now }
      else s),
   (store.filter (fun s =>
      s.project == project && isPredictionStale s.lastPredicted threshold now)).length)

/-! ## Layer 1: CausalityService.buildCausalChain

```typescript
async buildCausalChain(snapshotId: string): Promise<CausalChainNode[]> {
  const chain: CausalChainNode[] = [];
  const visited = new Set<string>();
  let currentId = snapshotId;
  let depth = 0;
  while (currentId && !visited.has(currentId)) {
    visited.add(currentId);
    const snapshot = await repository.findById(currentId);
    if (!snapshot) break;
    chain.unshift({ snapshot, depth, causedBy: snapshot.causality?.causedBy || null });
    currentId = snapshot.causality?.causedBy || null;
    depth++;
  }
  return chain;
}
```
-/

/-- The JavaScript coercion `x || null` on an optional string: the empty
string is falsy, so it too becomes `null`. The `while (currentId && ...)`
loop guard tests the same truthiness, so we normalise `currentId` through
`orNull` once and the guard becomes an `Option` match. -/
def orNull : Option String → Option String
  | none => none
  | some s => if s = "" then none else some s

structure CausalChainNode where
  snapshot : Snapshot
  depth : Nat
  causedBy : Option String
deriving DecidableEq, Repr

/-- Number of ids of store rows not yet in the visited set; the traversal's
termination measure (each loop iteration adds the id of a found row to
`visited`, so this strictly decreases). -/
def unvisitedCount (store : List Snapshot) (visited : List String) : Nat :=
  ((store.map Snapshot.id).filter (fun i => decide (i ∉ visited))).length

theorem length_filter_le_of_imp (l : List String) (p q : String → Bool)
    (h : ∀ x, p x = true → q x = true) :
    (l.filter p).length ≤ (l.filter q).length := by
  induction l with
  | nil => simp
  | cons a t ih =>
    by_cases hp : p a = true
    · simp [List.filter, hp, h a hp]
      omega
    · simp only [List.filter, Bool.not_eq_true] at hp ⊢
      rw [hp]
      cases hq : q a <;> simp <;> omega

theorem length_filter_notmem_cons_lt (l visited : List String) (cid : String)
    (hmem : cid ∈ l) (hnot : cid ∉ visited) :
    (l.filter (fun i => decide (i ∉ cid :: visited))).length
      < (l.filter (fun i => decide (i ∉ visited))).length := by
  induction l with
  | nil => cases hmem
  | cons a t ih =>
    by_cases ha : a = cid
    · subst ha
      rw [List.filter_cons_of_neg (by simp), List.filter_cons_of_pos (by simp [hnot])]
      refine Nat.lt_succ_of_le (length_filter_le_of_imp _ _ _ ?_)
      intro x hx
      simp only [decide_eq_true_eq, List.mem_cons] at hx ⊢
      exact fun h => hx (Or.inr h)
    · rcases List.mem_cons.mp hmem with h | hmem'
      · exact absurd h.symm ha
      · by_cases hav : a ∈ visited
        · rw [List.filter_cons_of_neg (by simp [hav]),
            List.filter_cons_of_neg (by simp [hav])]
          exact ih hmem'
        · rw [List.filter_cons_of_pos (by simp [hav, ha]),
            List.filter_cons_of_pos (by simp [hav])]
          exact Nat.succ_lt_succ (ih hmem')

theorem unvisitedCount_cons_lt (store : List Snapshot) (visited : List String)
    (cid : String) (hmem : cid ∈ store.map Snapshot.id) (hnot : cid ∉ visited) :
    unvisitedCount store (cid :: visited) < unvisitedCount store visited :=
  length_filter_notmem_cons_lt (store.map Snapshot.id) visited cid hmem hnot

def buildCausalChainGo (store : List Snapshot) (visited : List String)
    (currentId : Option String) (depth : Nat) : List CausalChainNode :=
  match currentId with
  | none => []
  | some cid =>
    if hv : cid ∈ visited then []
    else
      match hf : findById store cid with
      | none => []
      | some s =>
        buildCausalChainGo store (cid :: visited) (orNull s.causedBy) (depth + 1)
          ++ [{ snapshot := s, depth := depth, causedBy := orNull s.causedBy }]
termination_by unvisitedCount store visited
decreasing_by
  have hs : s ∈ store := List.mem_of_find?_eq_some hf
  have hid : s.id = cid := by
    have := List.find?_some hf
    simpa using this
  exact unvisitedCount_cons_lt store visited cid
    (List.mem_map.mpr ⟨s, hs, hid⟩) hv

/-- `buildCausalChain(snapshotId)`: backward traversal from `snapshotId`
along `causedBy` links, visited-set guarded, root ending up at index 0. -/
def buildCausalChain (store : List Snapshot) (snapshotId : String) :
    List CausalChainNode :=
  buildCausalChainGo store [] (orNull (some snapshotId)) 0

/-- Rendering of an action type token, as stored in the `action_type`
column. -/
def actionTypeText : ActionType → String
  | ActionType.conversation => "conversation"
  | ActionType.decision => "decision"
  | ActionType.file_edit => "file_edit"
  | ActionType.tool_use => "tool_use"
  | ActionType.research => "research"

/-- Modelled from the spec: the body of `reconstructReasoning` is not in the
repository sources — only its output format (Action Type / Rationale /
Context Summary), its edge cases (no causality metadata: summary only;
missing rationale: the placeholder "No rationale provided") and the
service error-handling pattern (throw "Context not found" when the snapshot
is absent) are documented. This definition follows those words. -/
def reconstructReasoning (store : List Snapshot) (snapshotId : String) :
    Except String String :=
  match findById store snapshotId with
  | none => Except.error ("Context not found: " ++ snapshotId
      ++ ". It may have been pruned or never existed.")
  | some s =>
    match s.actionType with
    | none => Except.ok s.summary
    | some a => Except.ok ("**Action Type**: " ++ actionTypeText a
        ++ "\n\n**Rationale**: " ++ s.rationale.getD "No rationale provided"
        ++ "\n\n**Context Summary**: " ++ s.summary)

/-- Root-cause snapshot of the C1 failing input. -/
def chainRoot : Snapshot := { baseSnapshot with id := "r", causedBy := none }

/-- Child of `chainRoot`, the queried snapshot of the C1 failing input. -/
def chainStart : Snapshot := { baseSnapshot with id := "s", causedBy := some "r" }

/-- C1: evaluation of `buildCausalChain` at the failing input — the store
holding just the chain r ← s, queried at s. The returned chain has the root
at index 0 and the queried snapshot last, but `depth` is the distance from
the QUERIED snapshot (the loop starts `depth = 0` at the queried id and
increments while walking backwards), so the root carries depth 1 and depth
is monotonically decreasing along the result — contradicting the claim and
the repository's own `CausalChainNode` documentation (`depth`: distance from
root, 0 = root) and doc examples, which show depth 0 at the root and
increasing depth. -/
theorem buildCausalChain_depth_divergence :
    (buildCausalChain [chainRoot, chainStart] "s").map
        (fun n => (n.snapshot.id, n.depth))
      = [("r", 1), ("s", 0)] := by
  simp [buildCausalChain, buildCausalChainGo, findById, orNull,
    chainRoot, chainStart, baseSnapshot, List.find?]

/-- One step of the traversal produces one chain node, so the chain is
bounded by the number of store rows whose id is not yet visited. -/
theorem buildCausalChainGo_length_le (store : List Snapshot)
    (visited : List String) (currentId : Option String) (depth : Nat) :
    (buildCausalChainGo store visited currentId depth).length
      ≤ unvisitedCount store visited := by
  induction visited, currentId, depth using buildCausalChainGo.induct store with
  | case1 visited depth => simp [buildCausalChainGo]
  | case2 visited depth cid hv => simp [buildCausalChainGo, hv]
  | case3 visited depth cid hv hf =>
    rw [buildCausalChainGo]
    simp only [hv, dite_false]
    split
    · simp
    · next s' heq => simp [hf] at heq
  | case4 visited depth cid hv s hf ih =>
    rw [buildCausalChainGo]
    simp only [hv, dite_false]
    split
    · simp
    · next s' heq =>
      have hss : s = s' := by
        rw [hf] at heq
        exact Option.some.inj heq
      subst hss
      have hs : s ∈ store := List.mem_of_find?_eq_some hf
      have hid : s.id = cid := by
        have := List.find?_some hf
        simpa using this
      have hlt := unvisitedCount_cons_lt store visited cid
        (List.mem_map.mpr ⟨s, hs, hid⟩) hv
      simp only [List.length_append, List.length_cons, List.length_nil]
      omega

/-- C6: on every store — including stores whose `causedBy` links form a
cycle reachable from the start — `buildCausalChain` is total (its Lean
definition is by well-founded recursion on the number of unvisited store
ids, which is exactly the visited-set argument of the source), the chain it
returns is bounded by the store size, and when the starting snapshot exists
(with a non-empty id, ids being opaque non-empty tokens) the chain is
non-empty. -/
theorem buildCausalChain_cycle_safe (store : List Snapshot) (start : String)
    (s : Snapshot) (h1 : findById store start = some s) (h2 : start ≠ "") :
    buildCausalChain store start ≠ [] ∧
      (buildCausalChain store start).length ≤ store.length := by
  constructor
  · unfold buildCausalChain
    have ho : orNull (some start) = some start := by simp [orNull, h2]
    rw [ho, buildCausalChainGo]
    simp only [List.not_mem_nil, not_false_eq_true, dite_false]
    split
    · next heq => simp [h1] at heq
    · simp
  · have h := buildCausalChainGo_length_le store [] (orNull (some start)) 0
    have : unvisitedCount store [] = store.length := by
      simp [unvisitedCount]
    rw [this] at h
    exact h

/-- First node of the cyclic witness store: a ↔ b. -/
def cycA : Snapshot := { baseSnapshot with id := "a", causedBy := some "b" }

/-- Second node of the cyclic witness store: a ↔ b. -/
def cycB : Snapshot := { baseSnapshot with id := "b", causedBy := some "a" }

/-- Witness for C6 on a genuinely cyclic causal graph (a ↔ b): the starting
snapshot exists, and the traversal returns a non-empty chain of at most two
nodes instead of looping. -/
theorem buildCausalChain_cycle_safe_witness :
    findById [cycA, cycB] "a" = some cycA ∧ "a" ≠ "" ∧
      (buildCausalChain [cycA, cycB] "a" ≠ [] ∧
        (buildCausalChain [cycA, cycB] "a").length ≤ 2) :=
  ⟨rfl, by decide, buildCausalChain_cycle_safe [cycA, cycB] "a" cycA rfl (by decide)⟩

/-- C10: when the store cannot return the starting id itself,
`buildCausalChain` returns the empty chain (the loop breaks before any node
is pushed) rather than raising an error, whereas `reconstructReasoning`
fails with a "Context not found" error on the same id. -/
theorem buildCausalChain_missing_vs_reconstruct (store : List Snapshot)
    (id : String) (h : findById store id = none) :
    buildCausalChain store id = [] ∧
      (∃ e, reconstructReasoning store id = Except.error e) := by
  constructor
  · unfold buildCausalChain
    by_cases h2 : id = ""
    · simp [orNull, h2, buildCausalChainGo]
    · have ho : orNull (some id) = some id := by simp [orNull, h2]
      rw [ho, buildCausalChainGo]
      simp only [List.not_mem_nil, not_false_eq_true, dite_false]
      split
      · rfl
      · next s' heq => simp [h] at heq
  · exact ⟨_, by rw [reconstructReasoning, h]⟩

/-- Witness for C10 at a concrete input: the empty store cannot return
"missing", the chain comes back empty and the reasoning reconstruction
fails. -/
theorem buildCausalChain_missing_vs_reconstruct_witness :
    buildCausalChain [] "missing" = [] ∧
      (∃ e, reconstructReasoning [] "missing" = Except.error e) :=
  buildCausalChain_missing_vs_reconstruct [] "missing" rfl

/-! ## Claims on the Layer 3 scoring functions -/

/-- Root of the C3 counterexample store. -/
def branchRoot : Snapshot := { baseSnapshot with id := "r" }

/-- A non-root decision snapshot with two children (C3 counterexample). -/
def branchDecision : Snapshot :=
  { baseSnapshot with
    id := "x", causedBy := some "r", actionType := some ActionType.decision }

/-- First child of `branchDecision`. -/
def branchChild1 : Snapshot := { baseSnapshot with id := "c1", causedBy := some "x" }

/-- Second child of `branchDecision`. -/
def branchChild2 : Snapshot := { baseSnapshot with id := "c2", causedBy := some "x" }

/-- The C3 counterexample store: r ← x, x ← c1, x ← c2. -/
def branchStore : List Snapshot :=
  [branchRoot, branchDecision, branchChild1, branchChild2]

/-- C3 counterexample: `branchDecision` is a non-root snapshot with
`actionType = decision`, yet its causal sub-score is 0.8, not 0.9 — the
source checks the branch-point condition (multiple children) BEFORE the
decision condition, so the claim "0.9 regardless of how many children it
has" is false. -/
theorem calculateCausalScore_decision_cex :
    branchDecision.causedBy ≠ none ∧
    branchDecision.actionType = some ActionType.decision ∧
    calculateCausalScore branchStore branchDecision = 8/10 ∧
    calculateCausalScore branchStore branchDecision ≠ 9/10 := by
  refine ⟨by decide, by decide, ?_, ?_⟩ <;>
    · simp [calculateCausalScore, childrenCount, branchStore, branchRoot,
        branchDecision, branchChild1, branchChild2, baseSnapshot]
      try norm_num

/-- C3 amended: the causal sub-score is evaluated in the priority order root
cause (1.0), then branch point with multiple children (0.8), then
`actionType = decision` (0.9), then leaf with a parent (0.3), otherwise 0.5;
in particular a non-root decision snapshot scores 0.9 exactly when it does
not have multiple children. -/
theorem calculateCausalScore_priority (store : List Snapshot) (s : Snapshot) :
    (s.causedBy = none → calculateCausalScore store s = 1) ∧
    (s.causedBy ≠ none → 2 ≤ childrenCount store s.id →
      calculateCausalScore store s = 8/10) ∧
    (s.causedBy ≠ none → childrenCount store s.id < 2 →
      s.actionType = some ActionType.decision →
      calculateCausalScore store s = 9/10) ∧
    (s.causedBy ≠ none → childrenCount store s.id = 0 →
      s.actionType ≠ some ActionType.decision →
      calculateCausalScore store s = 3/10) ∧
    (s.causedBy ≠ none → childrenCount store s.id = 1 →
      s.actionType ≠ some ActionType.decision →
      calculateCausalScore store s = 5/10) := by
  refine ⟨?_, ?_, ?_, ?_, ?_⟩ <;>
    · intros
      unfold calculateCausalScore
      split_ifs <;> first | rfl | omega | simp_all

/-- A decision snapshot with a parent and no children (C3 witness input). -/
def soloDecision : Snapshot :=
  { baseSnapshot with
    id := "d", causedBy := some "p", actionType := some ActionType.decision }

/-- Witness for C3 (amended) at a concrete input: a childless non-root
decision snapshot scores 0.9, and a root snapshot scores 1.0. -/
theorem calculateCausalScore_priority_witness :
    calculateCausalScore [soloDecision] soloDecision = 9/10 ∧
    calculateCausalScore [branchRoot] branchRoot = 1 :=
  ⟨(calculateCausalScore_priority [soloDecision] soloDecision).2.2.1
      (by decide) (by decide) (by decide),
   (calculateCausalScore_priority [branchRoot] branchRoot).1 (by decide)⟩

/-- C8: the prediction score is always within [0,1] (the weighted sum
`0.4·temporal + 0.3·causal + 0.3·frequency` of sub-scores each bounded by
1.0 cannot exceed 1.0), and any snapshot accessed less than one hour ago
with `accessCount ≥ 10` and no `causedBy` scores at least 0.9. -/
theorem calculatePredictionScore_bounds (store : List Snapshot) (s : Snapshot)
    (now : Int) :
    0 ≤ calculatePredictionScore store s now ∧
    calculatePredictionScore store s now ≤ 1 ∧
    (hoursSince s.lastAccessed now < 1 → 10 ≤ s.accessCount →
      s.causedBy = none → 9/10 ≤ calculatePredictionScore store s now) := by
  have ht : 1/10 ≤ calculateTemporalScore s.lastAccessed now ∧
      calculateTemporalScore s.lastAccessed now ≤ 1 := by
    unfold calculateTemporalScore
    dsimp only
    split_ifs <;> norm_num
  have hc : 3/10 ≤ calculateCausalScore store s ∧
      calculateCausalScore store s ≤ 1 := by
    unfold calculateCausalScore
    split_ifs <;> norm_num
  have hf : 2/10 ≤ calculateFrequencyScore s.accessCount ∧
      calculateFrequencyScore s.accessCount ≤ 1 := by
    unfold calculateFrequencyScore
    split_ifs <;> norm_num
  refine ⟨?_, ?_, ?_⟩
  · unfold calculatePredictionScore
    linarith [ht.1, hc.1, hf.1]
  · unfold calculatePredictionScore
    linarith [ht.2, hc.2, hf.2]
  · intro h1 h2 h3
    have htemp : calculateTemporalScore s.lastAccessed now = 1 := by
      unfold calculateTemporalScore
      dsimp only
      rw [if_pos h1]
    have hcaus : calculateCausalScore store s = 1 := by
      unfold calculateCausalScore
      rw [if_pos h3]
    have hfreq : calculateFrequencyScore s.accessCount = 1 := by
      unfold calculateFrequencyScore
      rw [if_pos h2]
    unfold calculatePredictionScore
    rw [htemp, hcaus, hfreq]
    norm_num

/-- A root snapshot accessed just now and 12 times in total (C8 witness). -/
def hotRoot : Snapshot :=
  { baseSnapshot with
    id := "h", lastAccessed := some 0, accessCount := 12 }

/-- Witness for C8 at a concrete input: the hot, frequently accessed root
snapshot scores at least 0.9 (and within [0,1]). -/
theorem calculatePredictionScore_bounds_witness :
    0 ≤ calculatePredictionScore [hotRoot] hotRoot 0 ∧
    calculatePredictionScore [hotRoot] hotRoot 0 ≤ 1 ∧
    9/10 ≤ calculatePredictionScore [hotRoot] hotRoot 0 :=
  ⟨(calculatePredictionScore_bounds [hotRoot] hotRoot 0).1,
   (calculatePredictionScore_bounds [hotRoot] hotRoot 0).2.1,
   (calculatePredictionScore_bounds [hotRoot] hotRoot 0).2.2
     (by norm_num [hoursSince, hotRoot, baseSnapshot]) (by decide) (by decide)⟩

/-- A snapshot accessed 5 times: in the moderate 5–9 frequency band
(C9 failing input). -/
def moderateSnap : Snapshot :=
  { baseSnapshot with
    id := "m", causedBy := some "p", accessCount := 5,
    tier := MemoryTier.RECENT, lastAccessed := some 0 }

/-- C9: the reason list computed at the failing input — a snapshot accessed
5 times (within the documented 5–9 "moderate" band). The source's checks
emit no frequency token at all for counts 5–9: there is no
`moderate_access_frequency` branch in the code, although the function's own
"Possible Reasons" documentation (and the claim) list it for counts 5–9. -/
theorem calculatePropagationReasons_moderate_divergence :
    calculatePropagationReasons moderateSnap 0 = ["recently_accessed"] ∧
    "moderate_access_frequency" ∉ calculatePropagationReasons moderateSnap 0 := by
  constructor <;>
    · simp only [calculatePropagationReasons, hoursSince, moderateSnap,
        baseSnapshot]
      norm_num
      try decide

/-- C7: `isPredictionStale` is true exactly when `lastPredicted` is absent or
at least `threshold` hours old; `updateProjectPredictions` rewrites the
prediction fields (score, reasons, `lastPredicted`) of exactly the project's
stale snapshots, leaves every other snapshot unchanged, and returns the
number of snapshots touched. -/
theorem predictions_staleness_spec :
    (∀ (lp : Option Int) (threshold : ℚ) (now : Int),
      isPredictionStale lp threshold now = true ↔
        lp = none ∨ ∃ t, lp = some t ∧
          threshold ≤ ((now - t : Int) : ℚ) / 3600000) ∧
    (∀ (store : List Snapshot) (project : String) (threshold : ℚ) (now : Int)
        (i : Nat) (s : Snapshot), store[i]? = some s →
      ((s.project ≠ project ∨
          isPredictionStale s.lastPredicted threshold now = false) →
        (updateProjectPredictions store project threshold now).1[i]? = some s) ∧
      (s.project = project →
          isPredictionStale s.lastPredicted threshold now = true →
        (updateProjectPredictions store project threshold now).1[i]? = some
          { s with
            predictionScore := some (calculatePredictionScore store s now),
            propagationReasons := some (calculatePropagationReasons s now),
            lastPredicted := some now })) ∧
    (∀ (store : List Snapshot) (project : String) (threshold : ℚ) (now : Int),
      (updateProjectPredictions store project threshold now).2 =
        (store.filter (fun s => s.project == project &&
          isPredictionStale s.lastPredicted threshold now)).length) := by
  refine ⟨?_, ?_, ?_⟩
  · intro lp threshold now
    cases lp with
    | none => simp [isPredictionStale]
    | some t =>
      simp only [isPredictionStale, decide_eq_true_eq, Option.some.injEq,
        reduceCtorEq, false_or]
      constructor
      · intro h
        exact ⟨t, rfl, by norm_num at h ⊢; exact h⟩
      · rintro ⟨u, hu, h⟩
        cases hu
        norm_num at h ⊢
        exact h
  · intro store project threshold now i s hs
    constructor
    · intro hcase
      rcases hcase with hne | hfresh
      · simp [updateProjectPredictions, List.getElem?_map, hs, hne]
      · simp [updateProjectPredictions, List.getElem?_map, hs, hfresh]
    · intro hp hstale
      simp [updateProjectPredictions, List.getElem?_map, hs, hp, hstale]
  · intro store project threshold now
    rfl

/-- A snapshot of project "p" whose prediction is one hour old (fresh at the
24h threshold). -/
def freshSnap : Snapshot :=
  { baseSnapshot with id := "f", project := "p", lastPredicted := some 0 }

/-- A snapshot of project "p" that has never been predicted (stale). -/
def staleSnap : Snapshot := { baseSnapshot with id := "g", project := "p" }

/-- Witness for C7 at a concrete input: with one fresh and one stale
snapshot, `updateProjectPredictions` leaves the fresh one untouched and
rewrites the stale one's prediction fields. -/
theorem predictions_staleness_spec_witness :
    (updateProjectPredictions [freshSnap, staleSnap] "p" 24 3600000).1[0]?
        = some freshSnap ∧
    (updateProjectPredictions [freshSnap, staleSnap] "p" 24 3600000).1[1]?
        = some { staleSnap with
            predictionScore := some (calculatePredictionScore
              [freshSnap, staleSnap] staleSnap 3600000),
            propagationReasons := some (calculatePropagationReasons
              staleSnap 3600000),
            lastPredicted := some 3600000 } :=
  ⟨(predictions_staleness_spec.2.1 [freshSnap, staleSnap] "p" 24 3600000
      0 freshSnap rfl).1 (Or.inr (by simp only [isPredictionStale, freshSnap, baseSnapshot]; norm_num)),
   (predictions_staleness_spec.2.1 [freshSnap, staleSnap] "p" 24 3600000
      1 staleSnap rfl).2 (by decide) (by decide)⟩

/-! ## Ordered retrieval

SQL `ORDER BY` clauses are modelled by an insertion sort parametrised by a
boolean comparison; any sort realises the clause, which guarantees no tie
order. -/

def insertSorted (le : Snapshot → Snapshot → Bool) (a : Snapshot) :
    List Snapshot → List Snapshot
  | [] => [a]
  | b :: t => if le a b then a :: b :: t else b :: insertSorted le a t

def sortSnapshots (le : Snapshot → Snapshot → Bool) :
    List Snapshot → List Snapshot
  | [] => []
  | a :: t => insertSorted le a (sortSnapshots le t)

theorem insertSorted_perm (le : Snapshot → Snapshot → Bool) (a : Snapshot)
    (l : List Snapshot) : (insertSorted le a l).Perm (a :: l) := by
  induction l with
  | nil => simp [insertSorted]
  | cons b t ih =>
    unfold insertSorted
    by_cases h : le a b = true
    · simp [h]
    · simp only [h, if_neg, Bool.not_eq_true, ite_false]
      exact (ih.cons b).trans (List.Perm.swap a b t)

theorem sortSnapshots_perm (le : Snapshot → Snapshot → Bool)
    (l : List Snapshot) : (sortSnapshots le l).Perm l := by
  induction l with
  | nil => simp [sortSnapshots]
  | cons a t ih =>
    exact (insertSorted_perm le a (sortSnapshots le t)).trans (ih.cons a)

theorem insertSorted_sorted (le : Snapshot → Snapshot → Bool)
    (htot : ∀ a b, le a b = true ∨ le b a = true)
    (htrans : ∀ a b c, le a b = true → le b c = true → le a c = true)
    (a : Snapshot) (l : List Snapshot)
    (h : l.Pairwise (fun x y => le x y = true)) :
    (insertSorted le a l).Pairwise (fun x y => le x y = true) := by
  induction l with
  | nil => simp [insertSorted]
  | cons b t ih =>
    obtain ⟨hb, ht⟩ := List.pairwise_cons.mp h
    unfold insertSorted
    by_cases hab : le a b = true
    · simp only [hab, ite_true]
      refine List.pairwise_cons.mpr ⟨?_, h⟩
      intro x hx
      rcases List.mem_cons.mp hx with rfl | hxt
      · exact hab
      · exact htrans a b x hab (hb x hxt)
    · have hba : le b a = true := (htot a b).resolve_left hab
      simp only [hab, ite_false]
      refine List.pairwise_cons.mpr ⟨?_, ih ht⟩
      intro x hx
      rcases List.mem_cons.mp ((insertSorted_perm le a t).mem_iff.mp hx)
        with rfl | hxt
      · exact hba
      · exact hb x hxt

theorem sortSnapshots_sorted (le : Snapshot → Snapshot → Bool)
    (htot : ∀ a b, le a b = true ∨ le b a = true)
    (htrans : ∀ a b c, le a b = true → le b c = true → le a c = true)
    (l : List Snapshot) :
    (sortSnapshots le l).Pairwise (fun x y => le x y = true) := by
  induction l with
  | nil => simp [sortSnapshots]
  | cons a t ih => exact insertSorted_sorted le htot htrans a _ ih

/-- The `ORDER BY last_accessed ASC NULLS FIRST` comparison: a `none`
`lastAccessed` sorts before everything (oldest), otherwise by timestamp. -/
def accLE (a b : Snapshot) : Bool :=
  match a.lastAccessed, b.lastAccessed with
  | none, _ => true
  | some _, none => false
  | some x, some y => decide (x ≤ y)

theorem accLE_total (a b : Snapshot) : accLE a b = true ∨ accLE b a = true := by
  unfold accLE
  rcases a.lastAccessed with _ | x <;> rcases b.lastAccessed with _ | y <;>
    simp <;> omega

theorem accLE_trans (a b c : Snapshot) (hab : accLE a b = true)
    (hbc : accLE b c = true) : accLE a c = true := by
  rcases ha : a.lastAccessed with _ | x <;>
    rcases hb : b.lastAccessed with _ | y <;>
      rcases hc : c.lastAccessed with _ | z <;>
        simp_all [accLE] <;> omega

/-! ## Layer 2: MemoryManagerService.pruneExpiredContexts

```sql
DELETE FROM context_snapshots
WHERE memory_tier = 'expired'
ORDER BY last_accessed ASC NULLS FIRST
LIMIT ?
```
selects the rows whose stored tier is EXPIRED, ordered oldest-`lastAccessed`
first with NULL oldest, caps them at the limit when one is given, deletes
them, and reports the number of rows deleted. -/

/-- The rows whose stored `memory_tier` is EXPIRED
(`WHERE memory_tier = 'expired'`). -/
def expiredOf (store : List Snapshot) : List Snapshot :=
  store.filter (fun s => s.tier == MemoryTier.EXPIRED)

/-- The expired rows in deletion order
(`ORDER BY last_accessed ASC NULLS FIRST`). -/
def orderedExpired (store : List Snapshot) : List Snapshot :=
  sortSnapshots accLE (expiredOf store)

/-- The rows the DELETE statement targets (`LIMIT ?`, absent limit means all). -/
def toDeleteList (store : List Snapshot) (limit : Option Nat) : List Snapshot :=
  match limit with
  | some l => (orderedExpired store).take l
  | none => orderedExpired store

def pruneExpiredContexts (store : List Snapshot) (limit : Option Nat) :
    List Snapshot × Nat :=
  (store.filter (fun s =>
      !(((toDeleteList store limit).map Snapshot.id).contains s.id)),
   (toDeleteList store limit).length)

theorem toDeleteList_subset (store : List Snapshot) (limit : Option Nat) :
    toDeleteList store limit ⊆ orderedExpired store := by
  cases limit with
  | some l => exact List.take_subset l (orderedExpired store)
  | none => exact fun x h => h

theorem mem_orderedExpired_iff (store : List Snapshot) (s : Snapshot) :
    s ∈ orderedExpired store ↔ s ∈ store ∧ s.tier = MemoryTier.EXPIRED := by
  unfold orderedExpired expiredOf
  rw [(sortSnapshots_perm accLE _).mem_iff, List.mem_filter]
  simp

/-- With distinct ids (the `id` column is the PRIMARY KEY), a row of the
store is determined by its id. -/
theorem eq_of_mem_of_id_eq (store : List Snapshot)
    (h : (store.map Snapshot.id).Nodup) (a b : Snapshot) (ha : a ∈ store)
    (hb : b ∈ store) (hid : a.id = b.id) : a = b := by
  induction store with
  | nil => cases ha
  | cons c t ih =>
    rw [List.map_cons, List.nodup_cons] at h
    rcases List.mem_cons.mp ha with rfl | hat <;>
      rcases List.mem_cons.mp hb with rfl | hbt
    · rfl
    · exact absurd (List.mem_map.mpr ⟨b, hbt, hid.symm⟩) h.1
    · exact absurd (List.mem_map.mpr ⟨a, hat, hid⟩) h.1
    · exact ih h.2 hat hbt

/-- A deleted row corresponds to a row of the DELETE target list with the
same id; with distinct ids it IS that row. -/
theorem deleted_mem_toDeleteList (store : List Snapshot) (limit : Option Nat)
    (h : (store.map Snapshot.id).Nodup) (s : Snapshot) (hs : s ∈ store)
    (hnot : s ∉ (pruneExpiredContexts store limit).1) :
    s ∈ toDeleteList store limit := by
  by_cases hc : ((toDeleteList store limit).map Snapshot.id).contains s.id = true
  · obtain ⟨d, hd, hdid⟩ := List.mem_map.mp (List.elem_iff.mp hc)
    have hdstore : d ∈ store :=
      ((mem_orderedExpired_iff store d).mp (toDeleteList_subset store limit hd)).1
    have : d = s := eq_of_mem_of_id_eq store h d s hdstore hs hdid
    exact this ▸ hd
  · exfalso
    refine hnot (List.mem_filter.mpr ⟨hs, ?_⟩)
    rw [Bool.not_eq_true']
    exact Bool.eq_false_iff.mpr hc

/-- A kept row is a store row whose id is not among the DELETE targets. -/
theorem kept_iff (store : List Snapshot) (limit : Option Nat) (k : Snapshot) :
    k ∈ (pruneExpiredContexts store limit).1 ↔
      k ∈ store ∧ k.id ∉ (toDeleteList store limit).map Snapshot.id := by
  unfold pruneExpiredContexts
  rw [List.mem_filter]
  simp [List.elem_iff]

/-- First expired snapshot of the C4 counterexample store. -/
def pruneA : Snapshot :=
  { baseSnapshot with
    id := "a", tier := MemoryTier.EXPIRED, lastAccessed := some 0 }

/-- Second expired snapshot of the C4 counterexample store. -/
def pruneB : Snapshot :=
  { baseSnapshot with
    id := "b", tier := MemoryTier.EXPIRED, lastAccessed := some 3600000 }

/-- C4 counterexample: with two EXPIRED snapshots and limit 1, the first
call deletes 1, and a second call — with no intervening access or
expiration change — deletes 1 again, not 0: the claimed idempotence fails
for capped calls (it holds for uncapped ones, see the amended theorem). -/
theorem pruneExpiredContexts_limit_cex :
    (pruneExpiredContexts [pruneA, pruneB] (some 1)).2 = 1 ∧
    (pruneExpiredContexts
        (pruneExpiredContexts [pruneA, pruneB] (some 1)).1 (some 1)).2 = 1 := by
  constructor <;> rfl

/-- C4 amended: `pruneExpiredContexts` deletes only snapshots whose stored
tier is EXPIRED (never a snapshot in any other tier); every deleted snapshot
is oldest-`lastAccessed`-first relative to every kept EXPIRED snapshot (with
`none` treated as oldest); deletions are capped at the limit when one is
given; and the operation is idempotent in its uncapped form: after a call
with no limit, any further call (with or without a limit) deletes 0.
A capped call that leaves EXPIRED snapshots behind is not idempotent
(see the counterexample). Ids are assumed distinct (`id` is the
PRIMARY KEY). -/
theorem pruneExpiredContexts_spec (store : List Snapshot) (limit : Option Nat)
    (h : (store.map Snapshot.id).Nodup) :
    (∀ s ∈ store, s ∉ (pruneExpiredContexts store limit).1 →
        s.tier = MemoryTier.EXPIRED) ∧
    (∀ s ∈ store, s ∉ (pruneExpiredContexts store limit).1 →
        ∀ k ∈ (pruneExpiredContexts store limit).1,
          k.tier = MemoryTier.EXPIRED → accLE s k = true) ∧
    (∀ l, limit = some l → (pruneExpiredContexts store limit).2 ≤ l) ∧
    (∀ limit2,
        (pruneExpiredContexts (pruneExpiredContexts store none).1 limit2).2
          = 0) := by
  refine ⟨?_, ?_, ?_, ?_⟩
  · intro s hs hnot
    exact ((mem_orderedExpired_iff store s).mp
      (toDeleteList_subset store limit
        (deleted_mem_toDeleteList store limit h s hs hnot))).2
  · intro s hs hnot k hk hkexp
    have hsd : s ∈ toDeleteList store limit :=
      deleted_mem_toDeleteList store limit h s hs hnot
    obtain ⟨hkstore, hkid⟩ := (kept_iff store limit k).mp hk
    have hkord : k ∈ orderedExpired store :=
      (mem_orderedExpired_iff store k).mpr ⟨hkstore, hkexp⟩
    have hknotdel : k ∉ toDeleteList store limit := fun hmem =>
      hkid (List.mem_map.mpr ⟨k, hmem, rfl⟩)
    cases limit with
    | none => exact absurd hkord hknotdel
    | some l =>
      have hsort : (orderedExpired store).Pairwise
          (fun x y => accLE x y = true) :=
        sortSnapshots_sorted accLE accLE_total accLE_trans _
      rw [← List.take_append_drop l (orderedExpired store)] at hsort
      have hcross := (List.pairwise_append.mp hsort).2.2
      have hkdrop : k ∈ (orderedExpired store).drop l := by
        rcases List.mem_append.mp
            ((List.take_append_drop l (orderedExpired store)).symm ▸ hkord)
          with htake | hdrop
        · exact absurd htake hknotdel
        · exact hdrop
      exact hcross s hsd k hkdrop
  · intro l hl
    subst hl
    exact List.length_take_le l (orderedExpired store)
  · intro limit2
    have hnoexp : ∀ s ∈ (pruneExpiredContexts store none).1,
        (s.tier == MemoryTier.EXPIRED) = false := by
      intro s hsr
      obtain ⟨hsstore, hsid⟩ := (kept_iff store none s).mp hsr
      by_contra hbeq
      have : s.tier = MemoryTier.EXPIRED := by
        simpa using Bool.not_eq_false _ |>.mp hbeq
      exact hsid (List.mem_map.mpr
        ⟨s, (mem_orderedExpired_iff store s).mpr ⟨hsstore, this⟩, rfl⟩)
    have hempty : expiredOf (pruneExpiredContexts store none).1 = [] := by
      rw [expiredOf, List.filter_eq_nil_iff]
      intro a ha
      simp [hnoexp a ha]
    have hord : orderedExpired (pruneExpiredContexts store none).1 = [] := by
      rw [orderedExpired, hempty]
      rfl
    show (toDeleteList (pruneExpiredContexts store none).1 limit2).length = 0
    cases limit2 with
    | none => simp [toDeleteList, hord]
    | some l => simp [toDeleteList, hord]

/-- Witness for C4 (amended) at a concrete input: the two-expired-snapshot
store has distinct ids, and after an uncapped prune any second call deletes
0 snapshots. -/
theorem pruneExpiredContexts_spec_witness :
    ([pruneA, pruneB].map Snapshot.id).Nodup ∧
    (∀ limit2,
      (pruneExpiredContexts
        (pruneExpiredContexts [pruneA, pruneB] none).1 limit2).2 = 0) :=
  ⟨by decide, (pruneExpiredContexts_spec [pruneA, pruneB] none (by decide)).2.2.2⟩

/-! ## Layer 2: MemoryManagerService.getMemoryStats

```typescript
async getMemoryStats(project: string): Promise<MemoryStats> {
  const contexts = await this.repository.findByProject(project, 1000);
  const stats = { total: contexts.length, active: 0, recent: 0, archived: 0, expired: 0 };
  for (const context of contexts) {
    switch (context.memory?.tier) {
      case MemoryTier.ACTIVE: stats.active++; break;
      case MemoryTier.RECENT: stats.recent++; break;
      case MemoryTier.ARCHIVED: stats.archived++; break;
      case MemoryTier.EXPIRED: stats.expired++; break;
    }
  }
  return stats;
}
```
-/

/-- The `ORDER BY timestamp DESC` comparison used by `findByProject`. -/
def tsGE (a b : Snapshot) : Bool := decide (b.timestamp ≤ a.timestamp)

/-- `findByProject(project, limit)`:
`SELECT * FROM context_snapshots WHERE project = ? ORDER BY timestamp DESC
LIMIT ?`. -/
def findByProject (store : List Snapshot) (project : String) (limit : Nat) :
    List Snapshot :=
  (sortSnapshots tsGE (store.filter (fun s => s.project == project))).take limit

structure MemoryStats where
  total : Nat
  active : Nat
  recent : Nat
  archived : Nat
  expired : Nat
deriving DecidableEq, Repr

/-- One step of the `for`/`switch` loop of `getMemoryStats`: bump the
counter of the snapshot's stored tier. -/
def tallyTier (st : MemoryStats) (s : Snapshot) : MemoryStats :=
  match s.tier with
  | MemoryTier.ACTIVE => { st with active := st.active + 1 }
  | MemoryTier.RECENT => { st with recent := st.recent + 1 }
  | MemoryTier.ARCHIVED => { st with archived := st.archived + 1 }
  | MemoryTier.EXPIRED => { st with expired := st.expired + 1 }

def getMemoryStats (store : List Snapshot) (project : String) : MemoryStats :=
  let contexts := findByProject store project 1000
  contexts.foldl tallyTier
    { total := contexts.length, active := 0, recent := 0, archived := 0,
      expired := 0 }

/-- Definition following the spec's words, for refinement comparison with
`getMemoryStats`: the tier histogram obtained by RECOMPUTING every
snapshot's tier from `(lastAccessed, now)` instead of reading the stored
tier field. -/
def getMemoryStatsRecomputed (store : List Snapshot) (project : String)
    (now : Int) : MemoryStats :=
  let contexts := findByProject store project 1000
  { total := contexts.length,
    active := (contexts.filter (fun s =>
      calculateMemoryTier s.lastAccessed now == MemoryTier.ACTIVE)).length,
    recent := (contexts.filter (fun s =>
      calculateMemoryTier s.lastAccessed now == MemoryTier.RECENT)).length,
    archived := (contexts.filter (fun s =>
      calculateMemoryTier s.lastAccessed now == MemoryTier.ARCHIVED)).length,
    expired := (contexts.filter (fun s =>
      calculateMemoryTier s.lastAccessed now == MemoryTier.EXPIRED)).length }

/-- A snapshot whose stored tier (ACTIVE) is stale: it was last accessed 40
days before the query (C5 counterexample). -/
def staleTierSnap : Snapshot :=
  { baseSnapshot with
    id := "v", project := "p", tier := MemoryTier.ACTIVE,
    lastAccessed := some 0 }

/-- C5 counterexample: `getMemoryStats` counts `staleTierSnap` as ACTIVE —
it reads the stored tier field and takes no `now` input at all — while
recomputing the tier from `(lastAccessed, now)` 40 days later classifies it
EXPIRED, so the histogram is NOT derived by recomputation and does trust the
stale persisted tier. -/
theorem getMemoryStats_stale_cex :
    (getMemoryStats [staleTierSnap] "p").active = 1 ∧
    calculateMemoryTier staleTierSnap.lastAccessed 3456000000
      = MemoryTier.EXPIRED ∧
    getMemoryStats [staleTierSnap] "p"
      ≠ getMemoryStatsRecomputed [staleTierSnap] "p" 3456000000 := by
  have htier : calculateMemoryTier (some 0) 3456000000
      = MemoryTier.EXPIRED := by
    norm_num [calculateMemoryTier]
  have h1 : getMemoryStats [staleTierSnap] "p"
      = { total := 1, active := 1, recent := 0, archived := 0, expired := 0 } :=
    rfl
  have h2 : getMemoryStatsRecomputed [staleTierSnap] "p" 3456000000
      = { total := 1, active := 0, recent := 0, archived := 0, expired := 1 } := by
    simp [getMemoryStatsRecomputed, findByProject, sortSnapshots, insertSorted,
      staleTierSnap, baseSnapshot, htier, List.filter_cons, List.filter_nil]
  refine ⟨by rw [h1], htier, ?_⟩
  rw [h1, h2]
  simp

theorem foldl_tallyTier_fields (l : List Snapshot) (st : MemoryStats) :
    (l.foldl tallyTier st).total = st.total ∧
    (l.foldl tallyTier st).active = st.active
      + (l.filter (fun s => s.tier == MemoryTier.ACTIVE)).length ∧
    (l.foldl tallyTier st).recent = st.recent
      + (l.filter (fun s => s.tier == MemoryTier.RECENT)).length ∧
    (l.foldl tallyTier st).archived = st.archived
      + (l.filter (fun s => s.tier == MemoryTier.ARCHIVED)).length ∧
    (l.foldl tallyTier st).expired = st.expired
      + (l.filter (fun s => s.tier == MemoryTier.EXPIRED)).length := by
  induction l generalizing st with
  | nil => simp
  | cons a t ih =>
    rw [List.foldl_cons]
    obtain ⟨h0, h1, h2, h3, h4⟩ := ih (tallyTier st a)
    cases htier : a.tier <;>
      · simp only [tallyTier, htier] at h0 h1 h2 h3 h4 ⊢
        refine ⟨?_, ?_, ?_, ?_, ?_⟩ <;>
          · simp [h0, h1, h2, h3, h4, List.filter_cons, htier]
            try omega

/-- Every snapshot has exactly one stored tier, so the four per-tier counts
partition the list. -/
theorem tier_filter_lengths_sum (l : List Snapshot) :
    (l.filter (fun s => s.tier == MemoryTier.ACTIVE)).length
      + (l.filter (fun s => s.tier == MemoryTier.RECENT)).length
      + (l.filter (fun s => s.tier == MemoryTier.ARCHIVED)).length
      + (l.filter (fun s => s.tier == MemoryTier.EXPIRED)).length
      = l.length := by
  induction l with
  | nil => rfl
  | cons a t ih =>
    cases htier : a.tier <;> simp [List.filter_cons, htier] <;> omega

/-- C5 amended: `getMemoryStats` returns the tier histogram of the (up to
1000) snapshots of the project computed from each snapshot's STORED tier
field — counts per stored tier plus total, the four counts summing to the
total — not by recomputing tiers from `(lastAccessed, now)`; stale persisted
tiers are reflected verbatim in the report (the function takes no `now` at
all). -/
theorem getMemoryStats_stored_tier (store : List Snapshot) (project : String) :
    (getMemoryStats store project).total
      = (findByProject store project 1000).length ∧
    (getMemoryStats store project).active
      = ((findByProject store project 1000).filter
          (fun s => s.tier == MemoryTier.ACTIVE)).length ∧
    (getMemoryStats store project).recent
      = ((findByProject store project 1000).filter
          (fun s => s.tier == MemoryTier.RECENT)).length ∧
    (getMemoryStats store project).archived
      = ((findByProject store project 1000).filter
          (fun s => s.tier == MemoryTier.ARCHIVED)).length ∧
    (getMemoryStats store project).expired
      = ((findByProject store project 1000).filter
          (fun s => s.tier == MemoryTier.EXPIRED)).length ∧
    (getMemoryStats store project).active + (getMemoryStats store project).recent
      + (getMemoryStats store project).archived
      + (getMemoryStats store project).expired
      = (getMemoryStats store project).total := by
  obtain ⟨h0, h1, h2, h3, h4⟩ :=
    foldl_tallyTier_fields (findByProject store project 1000)
      { total := (findByProject store project 1000).length, active := 0,
        recent := 0, archived := 0, expired := 0 }
  have hsum := tier_filter_lengths_sum (findByProject store project 1000)
  refine ⟨?_, ?_, ?_, ?_, ?_, ?_⟩ <;>
    simp only [getMemoryStats, h0, h1, h2, h3, h4] <;> omega

end WakeIQX
